import Mathlib

/-!
Formal model of the security-gated CI/CD pipeline of this repository
(`.dagger/main.go`, Dagger module `SearchApi`).

The orchestrator `FullPipeline` (main.go:1118-1358) is a straight-line Go
function.  Every step follows one of two shapes:

* a hard gate: `report += header; x, err := m.Stage(...); if err != nil
  { return report, wrap(err) }; report += okLine`
* a soft step:  `report += header; x, err := m.Stage(...); if err != nil
  { report += warnLine } else { report += okLine }`

We embed each per-stage wrapper (`SecretScan`, `SastScan`, ...) as a pure
function from the outcome of its underlying tool invocation (the container
`Stdout`/`Sync` call) to the `(output, error)` pair the Go function returns,
and `FullPipeline` as the sequence of its step blocks interpreted by
`runBlocks`.  The report, a Go string built by `+=`, is modelled as the list
of appended chunks; the Go value is their concatenation.  `dispatched`
records, in order, each stage method the orchestrator invokes.
-/

namespace SearchApi

/-- The `(output, error)` pair a Dagger call such as `Stdout(ctx)` or
`Sync(ctx)` produces: `err = none` models a `nil` Go error. -/
structure Outcome where
  out : String
  err : Option String
deriving DecidableEq

/-- Enforcement of one `FullPipeline` step: a `hard` step returns early on
error (aborting the run), a `soft` step only appends a warning line. -/
inductive Policy where
  | hard
  | soft
deriving DecidableEq

/-- `SecretScan` (main.go:30-61): TruffleHog scan; on a tool error it fails
with the wrapped message, otherwise it returns the raw tool output. -/
def SecretScan (o : Outcome) : Outcome :=
  match o.err with
  | some e => ⟨"", some ("SECRET SCAN FAILED - secrets detected in code: " ++ e)⟩
  | none => ⟨o.out, none⟩

/-- `SastScan` (main.go:64-101): Semgrep scan; the failure message embeds the
tool output followed by the wrapped error. -/
def SastScan (o : Outcome) : Outcome :=
  match o.err with
  | some e => ⟨"", some ("SAST FAILED - security vulnerabilities detected:\n" ++ o.out ++ "\n" ++ e)⟩
  | none => ⟨o.out, none⟩

/-- `DependencyScan` (main.go:104-130): Trivy filesystem scan. -/
def DependencyScan (o : Outcome) : Outcome :=
  match o.err with
  | some e => ⟨"", some ("DEPENDENCY SCAN FAILED - vulnerable packages found: " ++ e)⟩
  | none => ⟨o.out, none⟩

/-- `IacScan` (main.go:133-160): Checkov scan of the Kubernetes manifests.
Both branches of the Go function return a nil error (main.go:153-159): a
tool error is swallowed and only the tool output is returned. -/
def IacScan (o : Outcome) : Outcome :=
  match o.err with
  | some _ => ⟨o.out, none⟩
  | none => ⟨o.out, none⟩

/-- `StaticAnalysis` (main.go:163-185): dotnet format check; on success the
Go function discards the tool output and returns a fixed message. -/
def StaticAnalysis (o : Outcome) : Outcome :=
  match o.err with
  | some e => ⟨o.out, some ("code formatting check failed: " ++ e)⟩
  | none => ⟨"Static analysis passed: Code formatting is correct", none⟩

/-- `CSharpSecurityAnalysis` (main.go:189-219): analyzer-enforced build. -/
def CSharpSecurityAnalysis (o : Outcome) : Outcome :=
  match o.err with
  | some e => ⟨"", some ("C# SECURITY ANALYSIS FAILED - security issues detected:\n" ++ o.out ++ "\n" ++ e)⟩
  | none => ⟨o.out, none⟩

/-- `CodeCoverage` (main.go:222-260): runs the tests with coverage
collection and returns the raw cobertura report.  The `minimumCoverage`
parameter is declared (main.go:229) but never read by the body; the
threshold comparison is an unimplemented TODO (main.go:257-258). -/
def CodeCoverage (minimumCoverage : Int) (o : Outcome) : Outcome :=
  match o.err with
  | some e => ⟨"", some ("code coverage collection failed: " ++ e)⟩
  | none => ⟨o.out, none⟩

/-- `Build` (main.go:14-27) returns the lazily-built container together with
a literal `nil` error (main.go:20-26); it can never fail from the
orchestrator's point of view. -/
def Build : Outcome := ⟨"", none⟩

/-- `BuildContainer` (main.go:263-293) returns a container and no error
value at all. -/
def BuildContainer : Outcome := ⟨"", none⟩

/-- `ContainerSizeAnalysis` (main.go:346-398): both branches return a nil
error; a dive failure degrades to a partial-analysis message
(main.go:365-368) and a size-probe failure degrades to "unknown"
(main.go:378-380). -/
def ContainerSizeAnalysis (dive sizeInfo : Outcome) : Outcome :=
  match dive.err with
  | some _ => ⟨"Container size analysis completed with warnings\n" ++ dive.out, none⟩
  | none =>
    ⟨"\nContainer Size Analysis\n=======================\nTotal Image Size: "
      ++ (match sizeInfo.err with | some _ => "unknown" | none => sizeInfo.out)
      ++ "\nLayer Analysis:\n" ++ dive.out
      ++ "\n\nOptimization Recommendations:\n- Use BuildContainerOptimized() for 30-50% size reduction\n- Enable IL trimming to remove unused code\n- Use Alpine base images (smaller than Debian)\n- Consider distroless images for minimal attack surface\n- Use ReadyToRun compilation for faster startup\n", none⟩

/-- `GenerateSbom` (main.go:455-474): Syft SBOM generation. -/
def GenerateSbom (o : Outcome) : Outcome :=
  match o.err with
  | some e => ⟨"", some ("SBOM generation failed: " ++ e)⟩
  | none => ⟨o.out, none⟩

/-- `ScanContainer` (main.go:477-499): Trivy scan of the image tarball. -/
def ScanContainer (o : Outcome) : Outcome :=
  match o.err with
  | some e => ⟨"", some ("container scan FAILED - vulnerabilities found: " ++ e)⟩
  | none => ⟨o.out, none⟩

/-- `LicenseScan` (main.go:767-794): Trivy license scan. -/
def LicenseScan (o : Outcome) : Outcome :=
  match o.err with
  | some e => ⟨"", some ("LICENSE SCAN FAILED - problematic licenses detected: " ++ e)⟩
  | none => ⟨o.out, none⟩

/-- `PolicyCheck` (main.go:1000-1060): Conftest; on failure the tool output
is returned alongside the wrapped error (main.go:1055-1057). -/
def PolicyCheck (o : Outcome) : Outcome :=
  match o.err with
  | some e => ⟨o.out, some ("POLICY CHECK FAILED - policy violations detected: " ++ e)⟩
  | none => ⟨o.out, none⟩

/-- `CisBenchmark` (main.go:1064-1089): Trivy docker-cis compliance. -/
def CisBenchmark (o : Outcome) : Outcome :=
  match o.err with
  | some e => ⟨o.out, some ("CIS Benchmark check completed with findings: " ++ e)⟩
  | none => ⟨o.out, none⟩

/-- `PushToLocalRegistry` (main.go:510-534): a `Sync` followed by a
`Publish`; the sync error is returned unwrapped (main.go:520-522), the
publish error wrapped (main.go:529-531), and on success the published
address is returned. -/
def PushToLocalRegistry (syncRes publishRes : Outcome) : Outcome :=
  match syncRes.err with
  | some e => ⟨"", some e⟩
  | none =>
    match publishRes.err with
    | some e => ⟨"", some ("failed to push to local registry: " ++ e)⟩
    | none => ⟨publishRes.out, none⟩

/-- `SetupK3s` (main.go:537-578): starts the k3s container and reads the
kubeconfig; on a read error it fails wrapped (main.go:565-567), otherwise
it returns the kubeconfig with `127.0.0.1` rewritten to the service host
`k3s` (main.go:570). -/
def SetupK3s (kubeconfigRead : Outcome) : Outcome :=
  match kubeconfigRead.err with
  | some e => ⟨"", some ("failed to get kubeconfig: " ++ e)⟩
  | none => ⟨kubeconfigRead.out.replace "127.0.0.1" "k3s", none⟩

/-- `DeploySolr` (main.go:586-605): kubectl apply + wait; error-only. -/
def DeploySolr (applyRes : Outcome) : Outcome :=
  match applyRes.err with
  | some e => ⟨"", some ("failed to deploy Solr: " ++ e)⟩
  | none => ⟨"", none⟩

/-- `DeployApi` (main.go:608-691): kubectl apply + wait; error-only. -/
def DeployApi (applyRes : Outcome) : Outcome :=
  match applyRes.err with
  | some e => ⟨"", some ("failed to deploy API: " ++ e)⟩
  | none => ⟨"", none⟩

/-- `RunIntegrationTests` (main.go:694-719). -/
def RunIntegrationTests (o : Outcome) : Outcome :=
  match o.err with
  | some e => ⟨"", some ("integration tests failed: " ++ e)⟩
  | none => ⟨o.out, none⟩

/-- `DastScan` (main.go:723-763): OWASP ZAP; on a scan error the JSON report
is re-read best-effort (main.go:756-758) and returned with the wrapped
error. -/
def DastScan (tool recover : Outcome) : Outcome :=
  match tool.err with
  | some e => ⟨recover.out, some ("DAST FAILED - vulnerabilities detected in running application: " ++ e)⟩
  | none => ⟨tool.out, none⟩

/-- `ApiSecurityTest` (main.go:928-961): Nuclei scan. -/
def ApiSecurityTest (o : Outcome) : Outcome :=
  match o.err with
  | some e => ⟨"", some ("API SECURITY TEST FAILED - API vulnerabilities detected: " ++ e)⟩
  | none => ⟨o.out, none⟩

/-- `PerformanceTest` (main.go:834-890): k6 load test (the virtual-user
count and duration only parametrise the generated k6 script). -/
def PerformanceTest (o : Outcome) : Outcome :=
  match o.err with
  | some e => ⟨"", some ("PERFORMANCE TEST FAILED - did not meet performance thresholds: " ++ e)⟩
  | none => ⟨o.out, none⟩

/-- `MutationTest` (main.go:894-924): Stryker.NET (the score threshold
parametrises the stryker command line). -/
def MutationTest (minimumScore : Int) (o : Outcome) : Outcome :=
  match o.err with
  | some e => ⟨"", some ("MUTATION TESTING FAILED - test quality below threshold: " ++ e)⟩
  | none => ⟨o.out, none⟩

/-- `PushToRegistry` (main.go:1093-1115): authenticated publish. -/
def PushToRegistry (publishRes : Outcome) : Outcome :=
  match publishRes.err with
  | some e => ⟨"", some ("failed to push to registry: " ++ e)⟩
  | none => ⟨publishRes.out, none⟩

/-- `SetupLocalRegistry` (main.go:502-507): the service definition
`registry:2` with exposed port 5000.  The constructor chain is
deterministic, so every call site builds this same definition. -/
structure ServiceDef where
  image : String
  exposedPort : Option Nat
deriving DecidableEq

def SetupLocalRegistry : ServiceDef := ⟨"registry:2", some 5000⟩

/-- The registry service acquired at the `PushToLocalRegistry` call site
(main.go:511: `registry := m.SetupLocalRegistry()`). -/
def pushRegistryAcquired : ServiceDef := SetupLocalRegistry

/-- The registry service acquired at the `SetupK3s` call site
(main.go:538: `registry := m.SetupLocalRegistry()`). -/
def k3sRegistryAcquired : ServiceDef := SetupLocalRegistry

/-- Modelled from the spec: the Service Provisioner's per-run service store
(realised by the Dagger engine session, which is not part of this
repository's sources).  Services are content-addressed by their
definition: acquiring a definition that is already running returns the
existing instance and starts nothing new. -/
def acquireService (running : List ServiceDef) (d : ServiceDef) : ServiceDef × List ServiceDef :=
  if d ∈ running then (d, running) else (d, running ++ [d])

/-- The image reference pushed to the local registry, addressed through the
service binding named `registry` (main.go:513). -/
def pushImageRef (tag : String) : String := "registry:5000/search-api:" ++ tag

/-- The registry mirror endpoint written into the k3s `registries.yaml`
(main.go:541-545). -/
def k3sMirrorEndpoint : String := "http://registry:5000"

/-- The exec that launches the k3s server inside its container
(main.go:552-555). -/
def k3sStartArgs : List String :=
  ["sh", "-c", "k3s server --disable=traefik --disable=metrics-server --write-kubeconfig-mode=644 > /var/log/k3s.log 2>&1 &"]

/-- The fixed wait after launching k3s (main.go:556): ten seconds. -/
def k3sWaitArgs : List String := ["sleep", "10"]

/-- The kubectl readiness wait for the Solr deployment (main.go:597). -/
def solrWaitArgs : List String :=
  ["wait", "--for=condition=ready", "pod", "-l", "app=solr", "-n", "search-system", "--timeout=300s"]

/-- The kubectl readiness wait for the API deployment (main.go:683). -/
def apiWaitArgs : List String :=
  ["wait", "--for=condition=ready", "pod", "-l", "app=search-api", "-n", "search-system", "--timeout=300s"]

/-- The outcomes of the underlying tool invocations of one `FullPipeline`
run, plus the registry-push arguments (main.go:1122-1137).  Each field is
the `(stdout, error)` the corresponding container call would produce. -/
structure Env where
  secretTool : Outcome
  sastTool : Outcome
  csharpTool : Outcome
  coverageTool : Outcome
  staticTool : Outcome
  depTool : Outcome
  licenseTool : Outcome
  iacTool : Outcome
  policyTool : Outcome
  sbomTool : Outcome
  diveTool : Outcome
  sizeTool : Outcome
  scanTool : Outcome
  cisTool : Outcome
  pushSync : Outcome
  pushPublish : Outcome
  kubeconfigRead : Outcome
  solrApply : Outcome
  apiApply : Outcome
  integrationTool : Outcome
  dastTool : Outcome
  dastRecover : Outcome
  nucleiTool : Outcome
  k6Tool : Outcome
  strykerTool : Outcome
  registryPublish : Outcome
  registryUrl : String
  hasRegistryUsername : Bool
  hasRegistryPassword : Bool
  imageRef : String

/-- One step block of `FullPipeline`: the header line appended before the
stage call, the name of the stage method invoked, the stage's outcome, its
enforcement, the success line built from the stage output, and — for a
hard step — the wrapped error returned on abort, or — for a soft step —
the warning line appended instead. -/
structure Block where
  header : String
  stage : String
  outcome : Outcome
  policy : Policy
  okMsg : String → String
  failMsg : String → String

/-- What one `FullPipeline` run returns: the report chunks in order of
appending, the stage methods dispatched in order, and the Go error value. -/
structure RunResult where
  report : List String
  dispatched : List String
  failure : Option String
deriving DecidableEq

/-- The interpreter for the step blocks, replaying exactly the two Go block
shapes of main.go:1141-1351: append header, invoke the stage, then either
return early (hard step with an error), append the warning line (soft step
with an error), or append the success line. -/
def runBlocks : List Block → List String → List String → RunResult
  | [], rep, disp => ⟨rep, disp, none⟩
  | b :: bs, rep, disp =>
    match b.policy, b.outcome.err with
    | Policy.hard, some e => ⟨rep ++ [b.header], disp ++ [b.stage], some (b.failMsg e)⟩
    | Policy.hard, none => runBlocks bs (rep ++ [b.header, b.okMsg b.outcome.out]) (disp ++ [b.stage])
    | Policy.soft, some e => runBlocks bs (rep ++ [b.header, b.failMsg e]) (disp ++ [b.stage])
    | Policy.soft, none => runBlocks bs (rep ++ [b.header, b.okMsg b.outcome.out]) (disp ++ [b.stage])

/-- The opening report line (main.go:1139). -/
def startLine : String := "🚀 Starting Security-First CI/CD Pipeline\n\n"

/-- The line appended when the registry push is skipped (main.go:1350). -/
def skipLine : String := "⏭️  Step 24: Skipping registry push (credentials not provided)\n\n"

/-- The closing report lines (main.go:1353-1356). -/
def finalLines : List String :=
  ["🎉 Security-First Pipeline Completed Successfully!\n",
   "🔒 All 9 security gates passed - safe to deploy\n",
   "📊 Pipeline Stats: 25 steps | 9 enforced gates | 7 optional checks\n",
   "📝 Container optimization: Use BuildContainerOptimized() for 30-50% size reduction\n"]

/-- The registry-push guard (main.go:1342): all four credentials pieces must
be provided. -/
def registryCredsProvided (env : Env) : Bool :=
  env.registryUrl != "" && env.hasRegistryUsername && env.hasRegistryPassword && env.imageRef != ""

/-- The lines appended after the last step when no hard gate aborted:
the skip line when step 24 did not run, then the closing lines. -/
def tailLines (creds : Bool) : List String :=
  (if creds then [] else [skipLine]) ++ finalLines

/-- Steps 1-23 of `FullPipeline` (main.go:1141-1339), in order.  Hard steps
are the ones whose Go block returns early on error; soft steps only append
a warning. -/
def coreBlocks (env : Env) : List Block :=
  [
  -- Step 1 (main.go:1141-1147): secret scanning, hard gate
  ⟨"🔍 Step 1: Scanning for hardcoded secrets...\n", "SecretScan",
    SecretScan env.secretTool, Policy.hard,
    fun _ => "✅ No secrets detected\n\n",
    fun e => "❌ BLOCKED - " ++ e⟩,
  -- Step 2 (main.go:1149-1155): SAST, hard gate
  ⟨"🛡️  Step 2: Running SAST (Semgrep)...\n", "SastScan",
    SastScan env.sastTool, Policy.hard,
    fun _ => "✅ SAST passed - no security vulnerabilities in code\n\n",
    fun e => "❌ BLOCKED - " ++ e⟩,
  -- Step 3 (main.go:1157-1163): C# security analysis, hard gate
  ⟨"🔒 Step 3: Running C# Security Analysis (.NET Analyzers)...\n", "CSharpSecurityAnalysis",
    CSharpSecurityAnalysis env.csharpTool, Policy.hard,
    fun _ => "✅ C# security analysis passed\n\n",
    fun e => "❌ BLOCKED - " ++ e⟩,
  -- Step 4 (main.go:1165-1171): build and unit tests, hard gate
  ⟨"📦 Step 4: Building and running unit tests...\n", "Build",
    Build, Policy.hard,
    fun _ => "✅ Build and unit tests passed\n\n",
    fun e => "build failed: " ++ e⟩,
  -- Step 5 (main.go:1173-1180): code coverage, soft
  ⟨"📊 Step 5: Checking code coverage...\n", "CodeCoverage",
    CodeCoverage 80 env.coverageTool, Policy.soft,
    fun _ => "✅ Code coverage meets threshold (80%)\n\n",
    fun e => "⚠️  Code coverage warning: " ++ e ++ "\n\n"⟩,
  -- Step 6 (main.go:1182-1189): static analysis, soft
  ⟨"🔍 Step 6: Running code quality checks...\n", "StaticAnalysis",
    StaticAnalysis env.staticTool, Policy.soft,
    fun x => "✅ " ++ x ++ "\n\n",
    fun e => "⚠️  Code formatting warnings: " ++ e ++ "\n\n"⟩,
  -- Step 7 (main.go:1191-1197): dependency scan, hard gate
  ⟨"🔒 Step 7: Scanning dependencies for vulnerabilities...\n", "DependencyScan",
    DependencyScan env.depTool, Policy.hard,
    fun _ => "✅ No vulnerable dependencies found\n\n",
    fun e => "❌ BLOCKED - " ++ e⟩,
  -- Step 8 (main.go:1199-1205): license scan, hard gate
  ⟨"📜 Step 8: Scanning for license compliance issues...\n", "LicenseScan",
    LicenseScan env.licenseTool, Policy.hard,
    fun _ => "✅ No problematic licenses detected\n\n",
    fun e => "❌ BLOCKED - " ++ e⟩,
  -- Step 9 (main.go:1207-1214): IaC scan, soft (and IacScan never errors)
  ⟨"☸️  Step 9: Scanning Kubernetes manifests (IaC)...\n", "IacScan",
    IacScan env.iacTool, Policy.soft,
    fun _ => "✅ IaC security scan completed\n\n",
    fun _ => "⚠️  IaC scan completed with findings\n\n"⟩,
  -- Step 10 (main.go:1216-1223): policy check, soft
  ⟨"📝 Step 10: Validating policies (OPA/Conftest)...\n", "PolicyCheck",
    PolicyCheck env.policyTool, Policy.soft,
    fun _ => "✅ All policy checks passed\n\n",
    fun _ => "⚠️  Policy check completed with violations\n\n"⟩,
  -- Step 11 (main.go:1225-1232): SBOM, soft
  ⟨"📋 Step 11: Generating SBOM...\n", "GenerateSbom",
    GenerateSbom env.sbomTool, Policy.soft,
    fun x => "✅ SBOM generated (" ++ toString x.utf8ByteSize ++ " bytes)\n\n",
    fun e => "⚠️  SBOM generation warning: " ++ e ++ "\n\n"⟩,
  -- Step 12 (main.go:1234-1237): container build, no error value
  ⟨"🐳 Step 12: Building container image...\n", "BuildContainer",
    BuildContainer, Policy.soft,
    fun _ => "✅ Container image built\n\n",
    fun e => e⟩,
  -- Step 12a (main.go:1239-1247): size analysis, soft (never errors)
  ⟨"📏 Step 12a: Analyzing container size...\n", "ContainerSizeAnalysis",
    ContainerSizeAnalysis env.diveTool env.sizeTool, Policy.soft,
    fun _ => "✅ Container size analysis completed\n\n",
    fun e => "⚠️  Size analysis warning: " ++ e ++ "\n\n"⟩,
  -- Step 13 (main.go:1249-1255): container scan, hard gate
  ⟨"🔎 Step 13: Scanning container for vulnerabilities...\n", "ScanContainer",
    ScanContainer env.scanTool, Policy.hard,
    fun _ => "✅ Container has no HIGH/CRITICAL vulnerabilities\n\n",
    fun e => "❌ BLOCKED - " ++ e⟩,
  -- Step 14 (main.go:1257-1264): CIS benchmark, soft
  ⟨"📋 Step 14: Running CIS Docker Benchmark...\n", "CisBenchmark",
    CisBenchmark env.cisTool, Policy.soft,
    fun _ => "✅ CIS Benchmark passed\n\n",
    fun _ => "⚠️  CIS Benchmark completed with findings\n\n"⟩,
  -- Step 15 (main.go:1266-1272): local registry push, hard
  ⟨"📤 Step 15: Pushing to local registry...\n", "PushToLocalRegistry",
    PushToLocalRegistry env.pushSync env.pushPublish, Policy.hard,
    fun x => "✅ Pushed to local registry: " ++ x ++ "\n\n",
    fun e => "failed to push to local registry: " ++ e⟩,
  -- Step 16 (main.go:1274-1280): k3s cluster setup, hard
  ⟨"🏗️  Step 16: Setting up K3s cluster...\n", "SetupK3s",
    SetupK3s env.kubeconfigRead, Policy.hard,
    fun _ => "✅ K3s cluster ready\n\n",
    fun e => "failed to setup K3s: " ++ e⟩,
  -- Step 17 (main.go:1282-1289): Solr deployment, hard
  ⟨"🔍 Step 17: Deploying Solr...\n", "DeploySolr",
    DeploySolr env.solrApply, Policy.hard,
    fun _ => "✅ Solr deployed successfully\n\n",
    fun e => "failed to deploy Solr: " ++ e⟩,
  -- Step 18 (main.go:1291-1297): API deployment, hard
  ⟨"🚀 Step 18: Deploying Search API...\n", "DeployApi",
    DeployApi env.apiApply, Policy.hard,
    fun _ => "✅ Search API deployed successfully\n\n",
    fun e => "failed to deploy API: " ++ e⟩,
  -- Step 19 (main.go:1299-1305): integration tests, hard
  ⟨"🧪 Step 19: Running integration tests...\n", "RunIntegrationTests",
    RunIntegrationTests env.integrationTool, Policy.hard,
    fun _ => "✅ Integration tests passed\n\n",
    fun e => "integration tests failed: " ++ e⟩,
  -- Step 20 (main.go:1307-1313): DAST, hard gate
  ⟨"🎯 Step 20: Running DAST (OWASP ZAP)...\n", "DastScan",
    DastScan env.dastTool env.dastRecover, Policy.hard,
    fun _ => "✅ DAST passed - no vulnerabilities in running application\n\n",
    fun e => "❌ BLOCKED - " ++ e⟩,
  -- Step 21 (main.go:1315-1321): API security tests, hard gate
  ⟨"🔓 Step 21: Running API security tests (Nuclei)...\n", "ApiSecurityTest",
    ApiSecurityTest env.nucleiTool, Policy.hard,
    fun _ => "✅ API security tests passed - no API vulnerabilities\n\n",
    fun e => "❌ BLOCKED - " ++ e⟩,
  -- Step 22 (main.go:1323-1330): performance tests, soft
  ⟨"🚀 Step 22: Running performance tests (k6)...\n", "PerformanceTest",
    PerformanceTest env.k6Tool, Policy.soft,
    fun _ => "✅ Performance tests passed - meets SLAs\n\n",
    fun e => "⚠️  Performance test warning: " ++ e ++ "\n\n"⟩,
  -- Step 23 (main.go:1332-1339): mutation tests, soft
  ⟨"🧬 Step 23: Running mutation tests (Stryker.NET)...\n", "MutationTest",
    MutationTest 80 env.strykerTool, Policy.soft,
    fun _ => "✅ Mutation testing passed - test quality is high\n\n",
    fun e => "⚠️  Mutation testing warning: " ++ e ++ "\n\n"⟩
  ]

/-- Step 24 (main.go:1342-1348): the registry push, executed only when the
credentials are provided. -/
def pushRegistryBlock (env : Env) : Block :=
  ⟨"🏗️  Step 24: Pushing to container registry...\n", "PushToRegistry",
    PushToRegistry env.registryPublish, Policy.hard,
    fun x => "✅ Pushed to registry: " ++ x ++ "\n\n",
    fun e => "failed to push to registry: " ++ e⟩

/-- All step blocks of one `FullPipeline` run. -/
def blocks (env : Env) : List Block :=
  coreBlocks env ++ (if registryCredsProvided env then [pushRegistryBlock env] else [])

/-- `FullPipeline` (main.go:1118-1358): run the step blocks from the opening
line; when no hard gate aborted, append the skip line (when step 24 did not
run) and the closing lines and return a nil error. -/
def FullPipeline (env : Env) : RunResult :=
  match runBlocks (blocks env) [startLine] [] with
  | ⟨rep, disp, some e⟩ => ⟨rep, disp, some e⟩
  | ⟨rep, disp, none⟩ => ⟨rep ++ tailLines (registryCredsProvided env), disp, none⟩

/-- Whether a block makes the run return early: only a hard step with an
error does. -/
def haltsRun (b : Block) : Bool :=
  match b.policy with
  | Policy.hard => b.outcome.err.isSome
  | Policy.soft => false

/-- The second line a completed (non-aborting) block appends: the warning
line when a soft step errored, the success line otherwise. -/
def emittedLine (b : Block) : String :=
  match b.outcome.err with
  | some e => b.failMsg e
  | none => b.okMsg b.outcome.out

/-- The chunks a block list appends to the report. -/
def reportOf : List Block → List String
  | [] => []
  | b :: bs => if haltsRun b then [b.header] else b.header :: emittedLine b :: reportOf bs

/-- The stage methods a block list dispatches, in order. -/
def dispatchedOf : List Block → List String
  | [] => []
  | b :: bs => if haltsRun b then [b.stage] else b.stage :: dispatchedOf bs

/-- The error a block list aborts with, when any: the wrapped error of the
first halting block. -/
def abortOf : List Block → Option String
  | [] => none
  | b :: bs => if haltsRun b then Option.map b.failMsg b.outcome.err else abortOf bs

/-- The stage names of a block list, in declared order. -/
def stages (bs : List Block) : List String := bs.map Block.stage

/-- Whether the second character list is an initial segment of the
first. -/
def charListBegins : List Char → List Char → Bool
  | _, [] => true
  | [], _ :: _ => false
  | c :: cs, d :: ds => c == d && charListBegins cs ds

/-- Whether the second character list occurs inside the first. -/
def charListHas : List Char → List Char → Bool
  | [], n => charListBegins [] n
  | c :: cs, n => charListBegins (c :: cs) n || charListHas cs n

/-- Whether `needle` occurs as a substring of `hay`. -/
def containsStr (hay needle : String) : Bool :=
  charListHas hay.data needle.data

theorem runBlocks_def (bs : List Block) : ∀ rep disp,
    runBlocks bs rep disp = ⟨rep ++ reportOf bs, disp ++ dispatchedOf bs, abortOf bs⟩ := by
  induction bs with
  | nil => intro rep disp; simp [runBlocks, reportOf, dispatchedOf, abortOf]
  | cons b bs ih =>
    intro rep disp
    obtain ⟨hl, st, ⟨o, e⟩, p, ok, fl⟩ := b
    cases p <;> cases e <;>
      simp [runBlocks, reportOf, dispatchedOf, abortOf, haltsRun, emittedLine, ih]

theorem runBlocks_cons (b : Block) (bs : List Block) (rep disp : List String) :
    runBlocks (b :: bs) rep disp =
      if haltsRun b = true then
        ⟨rep ++ [b.header], disp ++ [b.stage], Option.map b.failMsg b.outcome.err⟩
      else runBlocks bs (rep ++ [b.header, emittedLine b]) (disp ++ [b.stage]) := by
  obtain ⟨hl, st, ⟨o, e⟩, p, ok, fl⟩ := b
  cases p <;> cases e <;> simp [runBlocks, haltsRun, emittedLine]

theorem FullPipeline_congr {e1 e2 : Env}
    (hb : runBlocks (blocks e1) [startLine] [] = runBlocks (blocks e2) [startLine] [])
    (hc : registryCredsProvided e1 = registryCredsProvided e2) :
    FullPipeline e1 = FullPipeline e2 := by
  unfold FullPipeline
  rw [hb, hc]

theorem pre_append_both {α : Type} {a l1 l2 : List α} (h : l1 <+: l2) :
    a ++ l1 <+: a ++ l2 := by
  obtain ⟨t, ht⟩ := h
  exact ⟨t, by rw [List.append_assoc, ht]⟩

theorem pre_append_r {α : Type} {l1 l2 l3 : List α} (h : l1 <+: l2) :
    l1 <+: l2 ++ l3 := by
  obtain ⟨t, ht⟩ := h
  exact ⟨t ++ l3, by rw [← List.append_assoc, ht]⟩

theorem FullPipeline_eq (env : Env) :
    FullPipeline env =
      match abortOf (blocks env) with
      | some e => ⟨[startLine] ++ reportOf (blocks env), dispatchedOf (blocks env), some e⟩
      | none => ⟨[startLine] ++ reportOf (blocks env) ++ tailLines (registryCredsProvided env),
                 dispatchedOf (blocks env), none⟩ := by
  unfold FullPipeline
  rw [runBlocks_def]
  cases habort : abortOf (blocks env) <;> simp [habort]

theorem FullPipeline_failure (env : Env) :
    (FullPipeline env).failure = abortOf (blocks env) := by
  rw [FullPipeline_eq]
  cases habort : abortOf (blocks env) <;> simp

theorem FullPipeline_dispatched (env : Env) :
    (FullPipeline env).dispatched = dispatchedOf (blocks env) := by
  rw [FullPipeline_eq]
  cases habort : abortOf (blocks env) <;> simp

theorem FullPipeline_report_abort (env : Env) (e : String)
    (h : abortOf (blocks env) = some e) :
    (FullPipeline env).report = [startLine] ++ reportOf (blocks env) := by
  rw [FullPipeline_eq, h]

theorem FullPipeline_report_done (env : Env)
    (h : abortOf (blocks env) = none) :
    (FullPipeline env).report
      = [startLine] ++ reportOf (blocks env) ++ tailLines (registryCredsProvided env) := by
  rw [FullPipeline_eq, h]

theorem reportOf_take (bs : List Block) : ∀ n, reportOf (bs.take n) <+: reportOf bs := by
  induction bs with
  | nil => intro n; simp [reportOf]
  | cons b bs ih =>
    intro n
    cases n with
    | zero => exact ⟨reportOf (b :: bs), by simp [reportOf]⟩
    | succ n =>
      by_cases hb : haltsRun b = true
      · simp [reportOf, hb]
      · obtain ⟨t, ht⟩ := ih n
        exact ⟨t, by simp [reportOf, hb]; exact ht⟩

theorem dispatchedOf_pre (bs : List Block) : dispatchedOf bs <+: stages bs := by
  induction bs with
  | nil => simp [dispatchedOf, stages]
  | cons b bs ih =>
    by_cases hb : haltsRun b = true
    · exact ⟨stages bs, by simp [dispatchedOf, stages, hb]⟩
    · obtain ⟨t, ht⟩ := ih
      exact ⟨t, by simp [dispatchedOf, stages, hb]; simpa [stages] using ht⟩

theorem halts_err_isSome {b : Block} (h : haltsRun b = true) :
    b.outcome.err.isSome = true := by
  unfold haltsRun at h
  cases hp : b.policy <;> rw [hp] at h
  · exact h
  · exact absurd h (by simp)

theorem abortOf_none_disp (bs : List Block) (hn : abortOf bs = none) :
    dispatchedOf bs = stages bs := by
  induction bs with
  | nil => simp [dispatchedOf, stages]
  | cons b bs ih =>
    by_cases hb : haltsRun b = true
    · exfalso
      have hs := halts_err_isSome hb
      unfold abortOf at hn
      rw [if_pos hb] at hn
      obtain ⟨e, he⟩ := Option.isSome_iff_exists.mp hs
      rw [he] at hn
      simp at hn
    · unfold abortOf at hn
      rw [if_neg hb] at hn
      simp [dispatchedOf, stages, hb, ih hn]

theorem abort_some_len (bs : List Block) (e : String) (ha : abortOf bs = some e) :
    (reportOf bs).length + 1 = 2 * (dispatchedOf bs).length := by
  induction bs with
  | nil => simp [abortOf] at ha
  | cons b bs ih =>
    by_cases hb : haltsRun b = true
    · simp [reportOf, dispatchedOf, hb]
    · unfold abortOf at ha
      rw [if_neg hb] at ha
      have := ih ha
      simp [reportOf, dispatchedOf, hb]
      omega

theorem reportOf_mem_emitted (bs : List Block) (hn : abortOf bs = none) :
    ∀ b ∈ bs, emittedLine b ∈ reportOf bs := by
  induction bs with
  | nil => intro b hb; simp at hb
  | cons c cs ih =>
    intro b hb
    by_cases hc : haltsRun c = true
    · exfalso
      have hs := halts_err_isSome hc
      unfold abortOf at hn
      rw [if_pos hc] at hn
      obtain ⟨e, he⟩ := Option.isSome_iff_exists.mp hs
      rw [he] at hn
      simp at hn
    · have hn' : abortOf cs = none := by
        unfold abortOf at hn
        rwa [if_neg hc] at hn
      rcases List.mem_cons.mp hb with hbc | hbs
      · subst hbc
        simp [reportOf, hc]
      · have hmem := ih hn' b hbs
        simp [reportOf, hc, hmem]

theorem partial_report_le (env : Env) (n : Nat) :
    (runBlocks ((blocks env).take n) [startLine] []).report <+: (FullPipeline env).report := by
  rw [runBlocks_def]
  have h1 : reportOf ((blocks env).take n) <+: reportOf (blocks env) := reportOf_take _ n
  cases habort : abortOf (blocks env) with
  | some e =>
    rw [FullPipeline_report_abort env e habort]
    exact pre_append_both h1
  | none =>
    rw [FullPipeline_report_done env habort, List.append_assoc]
    exact pre_append_both (pre_append_r h1)

theorem stages_nodup (env : Env) : (stages (blocks env)).Nodup := by
  cases hc : registryCredsProvided env <;>
    simp [stages, blocks, coreBlocks, pushRegistryBlock, hc]

/-- A successful tool invocation with empty output. -/
def okO : Outcome := ⟨"", none⟩

/-- A run in which every underlying tool succeeds and no registry
credentials are provided. -/
def allOk : Env :=
  ⟨okO, okO, okO, okO, okO, okO, okO, okO, okO, okO, okO, okO, okO, okO, okO,
   okO, okO, okO, okO, okO, okO, okO, okO, okO, okO, okO, "", false, false, ""⟩

/-- A run in which the secret scanner (step 1, a hard gate) fails. -/
def envSecretFail : Env := { allOk with secretTool := ⟨"", some "found creds"⟩ }

/-- A run in which the secret scanner succeeds with a distinctive raw
output. -/
def envRawOut : Env := { allOk with secretTool := ⟨"RAWSECRETOUTPUT", none⟩ }

/-- A run in which the Checkov IaC tool errors with a distinctive
message. -/
def envIacErr : Env := { allOk with iacTool := ⟨"iac findings", some "IACERR42"⟩ }

/-- The same run as `envIacErr` with the tool error removed. -/
def envIacOk : Env := { allOk with iacTool := ⟨"iac findings", none⟩ }

/-- A run in which only the coverage collection (step 5, soft) fails. -/
def envCovFail : Env := { allOk with coverageTool := ⟨"", some "low coverage"⟩ }

/-- A run in which the k3s kubeconfig read (cluster acquisition) fails. -/
def envK3sFail : Env := { allOk with kubeconfigRead := ⟨"", some "connection refused"⟩ }

/-- Both branches of `IacScan` return the tool output with a nil error. -/
theorem IacScan_eq (o : Outcome) : IacScan o = ⟨o.out, none⟩ := by
  obtain ⟨oo, oe⟩ := o
  cases oe <;> rfl

/-- C1 (counterexample): in the run `envSecretFail` the hard step 1 fails;
the run returns only the opening line and step 1's header, dispatches only
`SecretScan`, and contains no `Skipped` entry for any later stage — the
later stages are absent from the report, not marked `Skipped`. -/
theorem hard_failure_skipped_marking_cex :
    FullPipeline envSecretFail =
      ⟨[startLine, "🔍 Step 1: Scanning for hardcoded secrets...\n"], ["SecretScan"],
        some "❌ BLOCKED - SECRET SCAN FAILED - secrets detected in code: found creds"⟩ ∧
    ((FullPipeline envSecretFail).report.all fun l => !(containsStr l "Skipped")) = true ∧
    ((FullPipeline envSecretFail).report.all fun l => !(containsStr l "SastScan")) = true ∧
    "SastScan" ∉ (FullPipeline envSecretFail).dispatched := by decide

/-- C1 (amended): when a hard step fails, the dispatched stages form a
strict cut of the fixed stage order and the report has exactly two chunks
per dispatched stage (opening line plus the failing step's header
included): stages after the failing one receive no report entry at all —
they are silently omitted rather than marked `Skipped`. -/
theorem hard_failure_halts_and_omits (env : Env)
    (h : (FullPipeline env).failure.isSome = true) :
    (FullPipeline env).dispatched <+: stages (blocks env) ∧
    (FullPipeline env).report.length = 2 * (FullPipeline env).dispatched.length := by
  rw [FullPipeline_failure] at h
  obtain ⟨e, he⟩ := Option.isSome_iff_exists.mp h
  constructor
  · rw [FullPipeline_dispatched]
    exact dispatchedOf_pre _
  · rw [FullPipeline_report_abort env e he, FullPipeline_dispatched]
    have hlen := abort_some_len (blocks env) e he
    simp [List.length_append]
    omega

/-- Witness for `hard_failure_halts_and_omits` at `envSecretFail`. -/
theorem hard_failure_halts_and_omits_witness :
    (FullPipeline envSecretFail).dispatched <+: stages (blocks envSecretFail) ∧
    (FullPipeline envSecretFail).report.length
      = 2 * (FullPipeline envSecretFail).dispatched.length :=
  hard_failure_halts_and_omits envSecretFail (by decide)

/-- C2: every run's Go error is exactly the wrapped error of the first
halting (hard-failing) step, and the report accumulated after any number
of steps is a prefix of the returned report — earlier results are never
dropped, even on abort. -/
theorem abort_returns_partial_report (env : Env) :
    (FullPipeline env).failure = abortOf (blocks env) ∧
    ∀ n : Nat,
      (runBlocks ((blocks env).take n) [startLine] []).report <+: (FullPipeline env).report :=
  ⟨FullPipeline_failure env, fun n => partial_report_le env n⟩

/-- C3: both acquisition sites of the local registry (main.go:511 and
main.go:538) construct the identical service definition, so at most one
distinct Registry definition exists per run; in the content-addressed
session store a second acquisition returns the same handle and starts
nothing new; and both sites address the service through the same
`registry:5000` endpoint. -/
theorem registry_acquisition_idempotent :
    pushRegistryAcquired = k3sRegistryAcquired ∧
    [pushRegistryAcquired, k3sRegistryAcquired].dedup = [SetupLocalRegistry] ∧
    (∀ s : List ServiceDef,
      (acquireService (acquireService s SetupLocalRegistry).2 SetupLocalRegistry).1
        = (acquireService s SetupLocalRegistry).1 ∧
      (acquireService (acquireService s SetupLocalRegistry).2 SetupLocalRegistry).2
        = (acquireService s SetupLocalRegistry).2) ∧
    (∀ tag : String, pushImageRef tag = "registry:5000/search-api:" ++ tag) ∧
    k3sMirrorEndpoint = "http://" ++ "registry:5000" := by
  refine ⟨rfl, by decide, ?_, fun _ => rfl, by decide⟩
  intro s
  by_cases hmem : SetupLocalRegistry ∈ s
  · simp [acquireService, hmem]
  · simp [acquireService, hmem]

/-- C4 (counterexample): in `envRawOut` the secret scan is dispatched and
succeeds with raw output `RAWSECRETOUTPUT`, yet that output occurs in no
chunk of the returned report — indeed the whole run result is identical to
the run with empty tool output. -/
theorem raw_output_preserved_cex :
    (FullPipeline envRawOut).failure = none ∧
    "SecretScan" ∈ (FullPipeline envRawOut).dispatched ∧
    envRawOut.secretTool.out = "RAWSECRETOUTPUT" ∧
    ((FullPipeline envRawOut).report.all fun l => !(containsStr l "RAWSECRETOUTPUT")) = true ∧
    FullPipeline envRawOut = FullPipeline allOk := by decide

/-- C4 (amended): the report never contains, and is not even influenced by,
a dispatched stage's raw tool output: replacing the secret scanner's raw
output by anything leaves the whole run result unchanged. -/
theorem secret_output_never_in_report (env : Env) (o : String) :
    FullPipeline { env with secretTool := ⟨o, env.secretTool.err⟩ } = FullPipeline env := by
  rcases env with ⟨⟨so, se⟩, f2, f3, f4, f5, f6, f7, f8, f9, f10, f11, f12, f13, f14, f15,
    f16, f17, f18, f19, f20, f21, f22, f23, f24, f25, f26, g1, g2, g3, g4⟩
  refine FullPipeline_congr ?_ (by rfl)
  cases se <;>
    · simp only [blocks, coreBlocks, pushRegistryBlock, registryCredsProvided,
        List.cons_append, List.nil_append]
      conv_lhs => rw [runBlocks_cons]
      conv_rhs => rw [runBlocks_cons]
      simp [haltsRun, emittedLine, SecretScan]

/-- C5 (counterexample): a Checkov tool error changes nothing: the run with
the erroring IaC tool is identical to the run without the error, the IaC
step reports the plain success line, and the error text `IACERR42` is
recorded nowhere. -/
theorem informational_error_recorded_cex :
    FullPipeline envIacErr = FullPipeline envIacOk ∧
    (FullPipeline envIacErr).failure = none ∧
    "✅ IaC security scan completed\n\n" ∈ (FullPipeline envIacErr).report ∧
    ((FullPipeline envIacErr).report.all fun l => !(containsStr l "IACERR42")) = true := by decide

/-- C5 (amended): the Informational IaC stage turns any underlying tool
error into a success (`IacScan` returns the output with a nil error), so
its status is Success and the run continues; but the error value is
discarded rather than recorded — the run result is invariant under the
IaC tool's error. -/
theorem informational_error_discarded (env : Env) (e : Option String) :
    (∀ o : Outcome, IacScan o = ⟨o.out, none⟩) ∧
    FullPipeline { env with iacTool := ⟨env.iacTool.out, e⟩ } = FullPipeline env := by
  refine ⟨IacScan_eq, ?_⟩
  have hb : blocks { env with iacTool := ⟨env.iacTool.out, e⟩ } = blocks env := by
    simp [blocks, coreBlocks, pushRegistryBlock, registryCredsProvided, IacScan_eq]
  have hc : registryCredsProvided { env with iacTool := ⟨env.iacTool.out, e⟩ }
      = registryCredsProvided env := rfl
  unfold FullPipeline
  rw [hb, hc]

/-- C6: in every run in which no hard-gated operation fails (the soft
steps' outcomes are arbitrary), the run finishes with a nil error and
reports completion, every stage is still dispatched, and every soft step
whose outcome errored has its warning line — its Warning-status entry —
recorded in the report. -/
theorem soft_failure_run_completes (env : Env)
    (h1 : env.secretTool.err = none) (h2 : env.sastTool.err = none)
    (h3 : env.csharpTool.err = none) (h4 : env.depTool.err = none)
    (h5 : env.licenseTool.err = none) (h6 : env.scanTool.err = none)
    (h7 : env.pushSync.err = none) (h8 : env.pushPublish.err = none)
    (h9 : env.kubeconfigRead.err = none) (h10 : env.solrApply.err = none)
    (h11 : env.apiApply.err = none) (h12 : env.integrationTool.err = none)
    (h13 : env.dastTool.err = none) (h14 : env.nucleiTool.err = none)
    (h15 : env.registryPublish.err = none) :
    (FullPipeline env).failure = none ∧
    (∀ b ∈ blocks env, ∀ e : String, b.policy = Policy.soft → b.outcome.err = some e →
      b.failMsg e ∈ (FullPipeline env).report) ∧
    (FullPipeline env).dispatched = stages (blocks env) ∧
    "🎉 Security-First Pipeline Completed Successfully!\n" ∈ (FullPipeline env).report := by
  have habort : abortOf (blocks env) = none := by
    cases hc : registryCredsProvided env <;>
      simp [blocks, coreBlocks, pushRegistryBlock, hc, abortOf, haltsRun,
        SecretScan, SastScan, CSharpSecurityAnalysis, Build, CodeCoverage, StaticAnalysis,
        DependencyScan, LicenseScan, IacScan, PolicyCheck, GenerateSbom, BuildContainer,
        ContainerSizeAnalysis, ScanContainer, CisBenchmark, PushToLocalRegistry, SetupK3s,
        DeploySolr, DeployApi, RunIntegrationTests, DastScan, ApiSecurityTest,
        PerformanceTest, MutationTest, PushToRegistry,
        h1, h2, h3, h4, h5, h6, h7, h8, h9, h10, h11, h12, h13, h14, h15]
  refine ⟨?_, ?_, ?_, ?_⟩
  · rw [FullPipeline_failure]
    exact habort
  · intro b hb e hp he
    rw [FullPipeline_report_done env habort]
    have hmem : emittedLine b ∈ reportOf (blocks env) :=
      reportOf_mem_emitted (blocks env) habort b hb
    have hline : emittedLine b = b.failMsg e := by
      unfold emittedLine
      rw [he]
    rw [hline] at hmem
    simp only [List.mem_append]
    exact Or.inl (Or.inr hmem)
  · rw [FullPipeline_dispatched]
    exact abortOf_none_disp _ habort
  · rw [FullPipeline_report_done env habort]
    cases hc : registryCredsProvided env <;>
      simp [tailLines, finalLines, skipLine, hc]

/-- Witness for `soft_failure_run_completes` at `envCovFail`, whose soft
coverage step fails: the instantiated warning line is in the report, the
run dispatches everything and completes. -/
theorem soft_failure_run_completes_witness :
    (FullPipeline envCovFail).failure = none ∧
    ("⚠️  Code coverage warning: " ++ ("code coverage collection failed: " ++ "low coverage") ++ "\n\n")
      ∈ (FullPipeline envCovFail).report ∧
    (FullPipeline envCovFail).dispatched = stages (blocks envCovFail) ∧
    "🎉 Security-First Pipeline Completed Successfully!\n" ∈ (FullPipeline envCovFail).report := by
  have h := soft_failure_run_completes envCovFail
    rfl rfl rfl rfl rfl rfl rfl rfl rfl rfl rfl rfl rfl rfl rfl
  refine ⟨h.1, ?_, h.2.2.1, h.2.2.2⟩
  have hw := h.2.1
    ⟨"📊 Step 5: Checking code coverage...\n", "CodeCoverage",
      CodeCoverage 80 envCovFail.coverageTool, Policy.soft,
      fun _ => "✅ Code coverage meets threshold (80%)\n\n",
      fun e => "⚠️  Code coverage warning: " ++ e ++ "\n\n"⟩
    (by simp [blocks, coreBlocks, List.mem_append])
    ("code coverage collection failed: " ++ "low coverage") rfl rfl
  exact hw

/-- C7 (counterexample): the cluster acquisition has no 60-second readiness
deadline — the only built-in wait after launching k3s is a fixed 10-second
sleep, the kubectl readiness waits use 300 seconds, none of the involved
commands mentions 60 — and a failing acquisition raises a plain wrapped
error that is not classified `ServiceUnavailable`. -/
theorem cluster_deadline_cex :
    k3sWaitArgs = ["sleep", "10"] ∧
    ((k3sStartArgs ++ k3sWaitArgs ++ solrWaitArgs ++ apiWaitArgs).all
      fun a => !(containsStr a "60")) = true ∧
    (FullPipeline envK3sFail).failure
      = some "failed to setup K3s: failed to get kubeconfig: connection refused" ∧
    containsStr "failed to setup K3s: failed to get kubeconfig: connection refused"
      "ServiceUnavailable" = false ∧
    "DeploySolr" ∉ (FullPipeline envK3sFail).dispatched := by decide

/-- C7 (amended): when the cluster acquisition fails (SetupK3s cannot read
the kubeconfig; the code waits a fixed 10 seconds for k3s, with no
60-second readiness deadline and no `ServiceUnavailable` classification),
the wrapped error is always treated as hard and the run aborts before any
cluster-dependent stage is dispatched. -/
theorem cluster_setup_failure_aborts (env : Env) (e : String)
    (h1 : env.secretTool.err = none) (h2 : env.sastTool.err = none)
    (h3 : env.csharpTool.err = none) (h4 : env.depTool.err = none)
    (h5 : env.licenseTool.err = none) (h6 : env.scanTool.err = none)
    (h7 : env.pushSync.err = none) (h8 : env.pushPublish.err = none)
    (hk : env.kubeconfigRead.err = some e) :
    (FullPipeline env).failure
      = some ("failed to setup K3s: " ++ ("failed to get kubeconfig: " ++ e)) ∧
    "DeploySolr" ∉ (FullPipeline env).dispatched ∧
    "DeployApi" ∉ (FullPipeline env).dispatched ∧
    "RunIntegrationTests" ∉ (FullPipeline env).dispatched ∧
    "DastScan" ∉ (FullPipeline env).dispatched ∧
    "ApiSecurityTest" ∉ (FullPipeline env).dispatched ∧
    "PerformanceTest" ∉ (FullPipeline env).dispatched ∧
    "MutationTest" ∉ (FullPipeline env).dispatched := by
  have habort : abortOf (blocks env)
      = some ("failed to setup K3s: " ++ ("failed to get kubeconfig: " ++ e)) := by
    simp [blocks, coreBlocks, pushRegistryBlock, abortOf, haltsRun,
      SecretScan, SastScan, CSharpSecurityAnalysis, Build, CodeCoverage, StaticAnalysis,
      DependencyScan, LicenseScan, IacScan, PolicyCheck, GenerateSbom, BuildContainer,
      ContainerSizeAnalysis, ScanContainer, CisBenchmark, PushToLocalRegistry, SetupK3s,
      h1, h2, h3, h4, h5, h6, h7, h8, hk]
  have hdisp : dispatchedOf (blocks env)
      = ["SecretScan", "SastScan", "CSharpSecurityAnalysis", "Build", "CodeCoverage",
         "StaticAnalysis", "DependencyScan", "LicenseScan", "IacScan", "PolicyCheck",
         "GenerateSbom", "BuildContainer", "ContainerSizeAnalysis", "ScanContainer",
         "CisBenchmark", "PushToLocalRegistry", "SetupK3s"] := by
    simp [blocks, coreBlocks, pushRegistryBlock, dispatchedOf, haltsRun,
      SecretScan, SastScan, CSharpSecurityAnalysis, Build, CodeCoverage, StaticAnalysis,
      DependencyScan, LicenseScan, IacScan, PolicyCheck, GenerateSbom, BuildContainer,
      ContainerSizeAnalysis, ScanContainer, CisBenchmark, PushToLocalRegistry, SetupK3s,
      h1, h2, h3, h4, h5, h6, h7, h8, hk]
  rw [FullPipeline_failure, FullPipeline_dispatched, habort, hdisp]
  refine ⟨rfl, ?_, ?_, ?_, ?_, ?_, ?_, ?_⟩ <;> decide

/-- Witness for `cluster_setup_failure_aborts` at `envK3sFail`. -/
theorem cluster_setup_failure_aborts_witness :
    (FullPipeline envK3sFail).failure
      = some ("failed to setup K3s: " ++ ("failed to get kubeconfig: " ++ "connection refused")) ∧
    "DeploySolr" ∉ (FullPipeline envK3sFail).dispatched ∧
    "DeployApi" ∉ (FullPipeline envK3sFail).dispatched ∧
    "RunIntegrationTests" ∉ (FullPipeline envK3sFail).dispatched ∧
    "DastScan" ∉ (FullPipeline envK3sFail).dispatched ∧
    "ApiSecurityTest" ∉ (FullPipeline envK3sFail).dispatched ∧
    "PerformanceTest" ∉ (FullPipeline envK3sFail).dispatched ∧
    "MutationTest" ∉ (FullPipeline envK3sFail).dispatched :=
  cluster_setup_failure_aborts envK3sFail "connection refused"
    rfl rfl rfl rfl rfl rfl rfl rfl rfl

/-- C8: the report is append-only: the report after the first `m` steps is
a prefix of the report after the first `n ≥ m` steps, which in turn is a
prefix of the returned report — entries are only ever appended, never
changed or retracted, so the entry count is non-decreasing. -/
theorem report_append_only (env : Env) (m n : Nat) (hmn : m ≤ n) :
    ((runBlocks ((blocks env).take m) [startLine] []).report
      <+: (runBlocks ((blocks env).take n) [startLine] []).report) ∧
    ((runBlocks ((blocks env).take n) [startLine] []).report <+: (FullPipeline env).report) := by
  constructor
  · rw [runBlocks_def, runBlocks_def]
    apply pre_append_both
    have h2 := reportOf_take ((blocks env).take n) m
    rwa [List.take_take, Nat.min_eq_left hmn] at h2
  · exact partial_report_le env n

/-- Witness for `report_append_only` at `allOk`, `m = 1`, `n = 2`. -/
theorem report_append_only_witness :
    ((runBlocks ((blocks allOk).take 1) [startLine] []).report
      <+: (runBlocks ((blocks allOk).take 2) [startLine] []).report) ∧
    ((runBlocks ((blocks allOk).take 2) [startLine] []).report <+: (FullPipeline allOk).report) :=
  report_append_only allOk 1 2 (by decide)

/-- C9: the dispatched stage methods of any run are pairwise distinct and
follow the fixed stage order (a prefix of it); when the run does not abort
every stage is dispatched exactly once.  Dispatch is sequential by
construction: each block completes before the next is considered. -/
theorem stage_invoked_at_most_once (env : Env) :
    (FullPipeline env).dispatched.Nodup ∧
    (FullPipeline env).dispatched <+: stages (blocks env) ∧
    ((FullPipeline env).failure = none → (FullPipeline env).dispatched = stages (blocks env)) := by
  rw [FullPipeline_dispatched, FullPipeline_failure]
  refine ⟨?_, dispatchedOf_pre _, fun hn => abortOf_none_disp _ hn⟩
  exact List.Nodup.sublist (dispatchedOf_pre (blocks env)).sublist (stages_nodup env)

/-- Witness for `stage_invoked_at_most_once` at `allOk`: the clean run
dispatches exactly the declared stage list. -/
theorem stage_invoked_at_most_once_witness :
    (FullPipeline allOk).dispatched = stages (blocks allOk) :=
  (stage_invoked_at_most_once allOk).2.2 (by decide)

/-- C10: `CodeCoverage` ignores its `minimumCoverage` parameter entirely:
for any two threshold values the stage produces the same result on the
same input, and its success or failure depends only on the underlying
collection outcome — the declared coverage threshold is never enforced
(main.go:257 leaves the comparison as a TODO). -/
theorem coverage_threshold_not_enforced (m1 m2 : Int) (o : Outcome) :
    CodeCoverage m1 o = CodeCoverage m2 o ∧
    (CodeCoverage m1 o).err.isSome = o.err.isSome := by
  constructor
  · rfl
  · obtain ⟨oo, oe⟩ := o
    cases oe <;> rfl

end SearchApi
